import Mathlib

/-
Verification of the FrameSense region-selection overlay and capture
coordination core, as a shallow embedding of the Rust/JS sources in
src/src-tauri/src.  Machine integers are modelled as Int/Nat with
explicit wrap-around where the source casts between i32 and u32.
External effects (the OS screenshot library, PNG encoding, base64) are
parameters of the embedded functions; each embedded Tauri command also
returns the list of capture requests it issued, so that claims about
"no capture attempted" are statable.
-/

/-- A pointer position, as delivered by the browser (clientX/clientY) or
by egui; coordinates are modelled as integers. -/
structure Point where
  x : Int
  y : Int
deriving DecidableEq, Repr

/-- Normalized selection bounds as computed by the overlay script:
left/top may be any integer, width/height are non-negative pixel counts. -/
structure SelBounds where
  x : Int
  y : Int
  width : Nat
  height : Nat
deriving DecidableEq, Repr

/-- State of the selection overlay script embedded in
start_fullscreen_selection (main.rs lines 323-432): the mutable
variables dragging, startX, startY of the HTML overlay. -/
structure OverlayState where
  dragging : Bool
  startX : Int
  startY : Int
deriving DecidableEq, Repr

/-- Initial script state: dragging = false, startX = startY = 0. -/
def initOverlay : OverlayState := { dragging := false, startX := 0, startY := 0 }

/-- The mousedown handler (main.rs lines 339-354).  A mousedown on the
close button returns early; otherwise dragging is set and the anchor
startX/startY is set to the event position, whatever the prior state. -/
def mousedown (s : OverlayState) (onCloseButton : Bool) (p : Point) : OverlayState :=
  if onCloseButton then s
  else { dragging := true, startX := p.x, startY := p.y }

/-- The mousemove handler (main.rs lines 356-371) only redraws the
selection box; it never changes dragging, startX or startY. -/
def mousemove (s : OverlayState) (p : Point) : OverlayState := s

/-- Outcome of the mouseup handler: completed means the bounds were sent
to the backend and the overlay closed, cancelled means the overlay was
closed without producing a result, ignored means the event fired while
no drag was in progress. -/
inductive MouseupOutcome where
  | completed (b : SelBounds)
  | cancelled
  | ignored
deriving DecidableEq, Repr

/-- The mouseup handler (main.rs lines 373-414): when dragging, it
computes width = abs dx, height = abs dy, left = min, top = min, and
sends the bounds only when width > 10 and height > 10, closing the
overlay without a result otherwise. -/
def mouseup (s : OverlayState) (p : Point) : OverlayState × MouseupOutcome :=
  if s.dragging = false then (s, MouseupOutcome.ignored)
  else
    let w := (p.x - s.startX).natAbs
    let h := (p.y - s.startY).natAbs
    let left := min s.startX p.x
    let top := min s.startY p.y
    ({ s with dragging := false },
     if 10 < w ∧ 10 < h then
       MouseupOutcome.completed { x := left, y := top, width := w, height := h }
     else MouseupOutcome.cancelled)

/-- A full drag gesture: pointer-down at a, any number of pointer moves,
pointer-up at p, starting from the freshly loaded overlay. -/
def runGesture (a : Point) (moves : List Point) (p : Point) : OverlayState × MouseupOutcome :=
  mouseup (moves.foldl mousemove (mousedown initOverlay false a)) p

/-- OverlayApp.calculate_selection_bounds (overlay_native.rs lines
178-185), restricted to integer coordinates: (min x, min y, abs dx as
u32, abs dy as u32). -/
def calculate_selection_bounds (a p : Point) : Int × Int × Nat × Nat :=
  (min a.x p.x, min a.y p.y, (a.x - p.x).natAbs, (a.y - p.y).natAbs)

/-- The guard of fastSelection.completedSelection in the pooled overlay
HTML (overlay_manager.rs lines 274-281): returns true exactly when the
selection is processed, i.e. when isReady and both dimensions strictly
exceed 10. -/
def completedSelectionFires (isReady : Bool) (b : SelBounds) : Bool :=
  if isReady = false ∨ b.width ≤ 10 ∨ b.height ≤ 10 then false else true

/-- Wire-level capture bounds (main.rs CaptureBounds): x, y are i32
values (modelled as Int), width, height are u32 values (modelled as
Nat). -/
structure CaptureBounds where
  x : Int
  y : Int
  width : Nat
  height : Nat
deriving DecidableEq, Repr

/-- The value of a Rust `as i32` cast applied to the mathematical
integer n: reduce modulo 2^32 into [-2^31, 2^31). -/
def wrapI32 (n : Int) : Int := (n + 2 ^ 31) % 2 ^ 32 - 2 ^ 31

/-- The value of a Rust `as u32` cast applied to the mathematical
integer n: reduce modulo 2^32 into [0, 2^32). -/
def u32cast (n : Int) : Nat := (n % 2 ^ 32).toNat

/-- The bounds adjustment of capture_screen_area (main.rs lines
104-115):
safe_x = bounds.x.max(0).min(max_width - bounds.width as i32),
safe_width = bounds.width.min((max_width - safe_x) as u32),
and likewise for y/height, where max_width/max_height are the first
screen's dimensions cast to i32.  Intermediate i32 arithmetic wraps. -/
def adjustBounds (screenW screenH : Nat) (b : CaptureBounds) : CaptureBounds :=
  let maxW := wrapI32 screenW
  let maxH := wrapI32 screenH
  let safeX := min (max b.x 0) (wrapI32 (maxW - wrapI32 b.width))
  let safeY := min (max b.y 0) (wrapI32 (maxH - wrapI32 b.height))
  let safeW := min b.width (u32cast (maxW - safeX))
  let safeH := min b.height (u32cast (maxH - safeY))
  { x := safeX, y := safeY, width := safeW, height := safeH }

/-- The command-level capture result (main.rs CaptureResult). -/
structure CaptureResult where
  success : Bool
  message : String
  bounds : Option CaptureBounds
  image_data : Option String
deriving DecidableEq, Repr

/-- A display as reported by screenshots::Screen::all (display_info
width/height are u32). -/
structure ScreenD where
  width : Nat
  height : Nat
deriving DecidableEq, Repr

/-- The external collaborators of capture_screen_area: the screen
enumeration, the OS capture call (raw image bytes), the PNG encoder and
the base64 encoder.  Each fallible call is an Except value/function. -/
structure CaptureEnv where
  screens : Except String (List ScreenD)
  capture : Int → Int → Nat → Nat → Except String (List Nat)
  toPng : List Nat → Except String (List Nat)
  base64 : List Nat → String

/-- The capture_screen_area command (main.rs lines 97-176), together
with the list of capture requests issued to the OS.  Every branch of
the source returns Ok(CaptureResult {...}); failures are reported
in-band via success = false with bounds and image_data both None. -/
def capture_screen_area (env : CaptureEnv) (bounds : CaptureBounds) :
    Except String CaptureResult × List CaptureBounds :=
  match env.screens with
  | Except.error e =>
      (Except.ok { success := false, message := "Failed to access screens: " ++ e,
                   bounds := none, image_data := none }, [])
  | Except.ok screens =>
      match screens with
      | [] =>
          (Except.ok { success := false, message := "No screens available",
                       bounds := none, image_data := none }, [])
      | screen :: _ =>
          let sb := adjustBounds screen.width screen.height bounds
          match env.capture sb.x sb.y sb.width sb.height with
          | Except.error e =>
              (Except.ok { success := false, message := "Screen capture failed: " ++ e,
                           bounds := none, image_data := none }, [sb])
          | Except.ok image =>
              match env.toPng image with
              | Except.error e =>
                  (Except.ok { success := false,
                               message := "Failed to encode image as PNG: " ++ e,
                               bounds := none, image_data := none }, [sb])
              | Except.ok png =>
                  (Except.ok { success := true,
                               message := "Screen area captured successfully!",
                               bounds := some sb,
                               image_data := some ("data:image/png;base64," ++ env.base64 png) },
                   [sb])

/-- The first screen of the environment, if any (screens.first()). -/
def firstScreen (env : CaptureEnv) : Option ScreenD :=
  match env.screens with
  | Except.ok (s :: _) => some s
  | _ => none

/-- The bounds capture_screen_area would adjust the request to, given
the environment (junk value b when no screen is available). -/
def adjustedOf (env : CaptureEnv) (b : CaptureBounds) : CaptureBounds :=
  match firstScreen env with
  | some s => adjustBounds s.width s.height b
  | none => b

/-- Whether the whole capture pipeline of capture_screen_area succeeds
in the given environment: a first screen exists, the OS capture of the
adjusted bounds succeeds, and PNG encoding succeeds. -/
def pipelineOk (env : CaptureEnv) (b : CaptureBounds) : Bool :=
  match firstScreen env with
  | none => false
  | some s =>
      let a := adjustBounds s.width s.height b
      match env.capture a.x a.y a.width a.height with
      | Except.error _ => false
      | Except.ok image => (env.toPng image).isOk

/-- The selection payload of the overlay_selection_completed command
(lib.rs OverlaySelection). -/
structure OverlaySelection where
  x : Int
  y : Int
  width : Nat
  height : Nat
deriving DecidableEq, Repr

/-- The result type delivered on the coordinator channel (lib.rs
SelectionResult, fields used there: bounds, image_data, cancelled). -/
structure SelectionResult where
  bounds : CaptureBounds
  image_data : String
  cancelled : Bool
deriving DecidableEq, Repr

/-- The provider-level capture result of the overlay module, as used by
lib.rs (fields bounds and image_data are read from it). -/
structure OvCaptureResult where
  bounds : CaptureBounds
  image_data : String
deriving DecidableEq, Repr

/-- The CaptureBounds built from an OverlaySelection in
overlay_selection_completed (lib.rs lines 125-130). -/
def selectionBounds (sel : OverlaySelection) : CaptureBounds :=
  { x := sel.x, y := sel.y, width := sel.width, height := sel.height }

/-- The overlay_selection_completed command (lib.rs lines 116-157),
parameterized by the ScreenCapture::capture_region provider.  Returns
the SelectionResult sent on the channel and the list of capture
requests issued.  On provider failure the coordinator degrades to
cancelled := true with an empty image instead of propagating the error. -/
def overlay_selection_completed
    (provider : CaptureBounds → Except String OvCaptureResult)
    (sel : OverlaySelection) : SelectionResult × List CaptureBounds :=
  let bounds := selectionBounds sel
  match provider bounds with
  | Except.ok result =>
      ({ bounds := result.bounds, image_data := result.image_data, cancelled := false },
       [bounds])
  | Except.error _ =>
      ({ bounds := bounds, image_data := "", cancelled := true }, [bounds])

/-- The overlay_selection_cancelled command (lib.rs lines 159-177):
sends the zero-bounds cancelled result and issues no capture request. -/
def overlay_selection_cancelled : SelectionResult × List CaptureBounds :=
  ({ bounds := { x := 0, y := 0, width := 0, height := 0 },
     image_data := "", cancelled := true }, [])

/-- The pooled overlay manager state (overlay_manager.rs OverlayManager):
an optional surface (identified by a number), the is_active flag and the
last_used instant (nanoseconds since an arbitrary epoch). -/
structure OverlayManager where
  overlay_window : Option Nat
  is_active : Bool
  last_used : Option Nat
deriving DecidableEq, Repr

/-- OverlayManager::new (overlay_manager.rs lines 12-18). -/
def OverlayManager.new : OverlayManager :=
  { overlay_window := none, is_active := false, last_used := none }

/-- Outcomes of the fallible OS calls made by show_selection_overlay:
whether window.show() succeeds and whether create_overlay_once succeeds. -/
structure ShowEnv where
  showOk : Bool
  createOk : Bool
deriving DecidableEq, Repr

/-- Result of a show_selection_overlay call: the new manager state,
whether the call returned Ok, whether a new surface was constructed,
and whether the resetSelection script was invoked on a reused surface. -/
structure ShowOutcome where
  state : OverlayManager
  ok : Bool
  created : Bool
  resetInvoked : Bool
deriving DecidableEq, Repr

/-- OverlayManager::show_selection_overlay (overlay_manager.rs lines
20-45).  With an existing surface: show it (early Err return on
failure), invoke window.resetSelection (eval errors are logged and
ignored), set is_active and last_used.  With no surface: build a new
one (early Err return on failure), store it, set is_active and
last_used. -/
def show_selection_overlay (m : OverlayManager) (env : ShowEnv) (now newId : Nat) :
    ShowOutcome :=
  match m.overlay_window with
  | some w =>
      if env.showOk then
        { state := { overlay_window := some w, is_active := true, last_used := some now },
          ok := true, created := false, resetInvoked := true }
      else
        { state := m, ok := false, created := false, resetInvoked := false }
  | none =>
      if env.createOk then
        { state := { overlay_window := some newId, is_active := true, last_used := some now },
          ok := true, created := true, resetInvoked := false }
      else
        { state := m, ok := false, created := false, resetInvoked := false }

/-- Duration::from_secs(300) in nanoseconds. -/
def fiveMinutes : Nat := 300 * 1000000000

/-- OverlayManager::cleanup_if_old (overlay_manager.rs lines 56-70):
when a last_used instant exists, its elapsed time strictly exceeds 300
seconds and the surface is not active, the pooled window is closed and
dropped (even when the close call errors); otherwise the state is left
untouched.  The current instant is passed as now (nanoseconds). -/
def cleanup_if_old (m : OverlayManager) (now : Nat) : OverlayManager :=
  match m.last_used with
  | some t =>
      if fiveMinutes < now - t ∧ m.is_active = false then
        { m with overlay_window := none }
      else m
  | none => m

/-- Pointer moves never change the script variables: folding the
mousemove handler over any list of positions is the identity. -/
theorem foldl_mousemove (moves : List Point) (s : OverlayState) :
    moves.foldl mousemove s = s := by
  induction moves generalizing s with
  | nil => rfl
  | cons m ms ih => exact ih s

/-- The mouseup handler fired from the state reached by a pointer-down
at a: either completed with the normalized bounds or cancelled. -/
theorem mouseup_after_down (a p : Point) :
    (mouseup { dragging := true, startX := a.x, startY := a.y } p).2 =
      (if 10 < (p.x - a.x).natAbs ∧ 10 < (p.y - a.y).natAbs then
        MouseupOutcome.completed
          { x := min a.x p.x, y := min a.y p.y,
            width := (p.x - a.x).natAbs, height := (p.y - a.y).natAbs }
      else MouseupOutcome.cancelled) := by
  simp [mouseup]

/-- Claim C1: for every completed drag gesture with anchor a and release
point p, the finalized bounds satisfy x = min(a.x, p.x),
y = min(a.y, p.y), width = abs(a.x - p.x), height = abs(a.y - p.y),
width and height are non-negative, and these are exactly the bounds
computed by OverlayApp.calculate_selection_bounds. -/
theorem C1_completed_gesture_bounds (a p : Point) (moves : List Point) (b : SelBounds)
    (h : (runGesture a moves p).2 = MouseupOutcome.completed b) :
    b.x = min a.x p.x ∧ b.y = min a.y p.y ∧
    (b.width : Int) = |a.x - p.x| ∧ (b.height : Int) = |a.y - p.y| ∧
    0 ≤ (b.width : Int) ∧ 0 ≤ (b.height : Int) ∧
    calculate_selection_bounds a p = (b.x, b.y, b.width, b.height) := by
  have hd : mousedown initOverlay false a =
      { dragging := true, startX := a.x, startY := a.y } := rfl
  rw [runGesture, foldl_mousemove, hd, mouseup_after_down] at h
  by_cases hc : 10 < (p.x - a.x).natAbs ∧ 10 < (p.y - a.y).natAbs
  · rw [if_pos hc] at h
    injection h with h
    subst h
    have h1 : (a.x - p.x).natAbs = (p.x - a.x).natAbs := by omega
    have h2 : (a.y - p.y).natAbs = (p.y - a.y).natAbs := by omega
    refine ⟨rfl, rfl, ?_, ?_, Int.natCast_nonneg _, Int.natCast_nonneg _, ?_⟩
    · show ((p.x - a.x).natAbs : Int) = |a.x - p.x|
      rw [Int.abs_eq_natAbs, h1]
    · show ((p.y - a.y).natAbs : Int) = |a.y - p.y|
      rw [Int.abs_eq_natAbs, h2]
    · show (min a.x p.x, min a.y p.y, (a.x - p.x).natAbs, (a.y - p.y).natAbs) =
        (min a.x p.x, min a.y p.y, (p.x - a.x).natAbs, (p.y - a.y).natAbs)
      rw [h1, h2]
  · rw [if_neg hc] at h
    exact absurd h (by simp)

/-- Witness for C1: the gesture down(100,100), move(200,150), up(400,300)
completes with bounds (100, 100, 300, 200). -/
theorem C1_witness :
    (runGesture ⟨100, 100⟩ [⟨200, 150⟩] ⟨400, 300⟩).2 =
      MouseupOutcome.completed ⟨100, 100, 300, 200⟩ ∧
    (⟨100, 100, 300, 200⟩ : SelBounds).x = min (100 : Int) 400 ∧
    calculate_selection_bounds ⟨100, 100⟩ ⟨400, 300⟩ =
      ((⟨100, 100, 300, 200⟩ : SelBounds).x, (⟨100, 100, 300, 200⟩ : SelBounds).y,
       (⟨100, 100, 300, 200⟩ : SelBounds).width, (⟨100, 100, 300, 200⟩ : SelBounds).height) :=
  have h := C1_completed_gesture_bounds ⟨100, 100⟩ ⟨400, 300⟩ [⟨200, 150⟩]
    ⟨100, 100, 300, 200⟩ (by decide)
  ⟨by decide, h.1, h.2.2.2.2.2.2⟩

/-- Claim C2: a selection released with width ≤ 10 or height ≤ 10 is
cancelled (the overlay is closed without a result), never completed,
and the pooled overlay's fastSelection.completedSelection guard likewise
refuses to process any bounds with width ≤ 10 or height ≤ 10, so no
capture is triggered; the comparison is strict, so exactly 10 pixels is
still rejected. -/
theorem C2_small_selection_cancelled (a p : Point) (moves : List Point)
    (hsmall : (p.x - a.x).natAbs ≤ 10 ∨ (p.y - a.y).natAbs ≤ 10) :
    (runGesture a moves p).2 = MouseupOutcome.cancelled ∧
    (∀ b, (runGesture a moves p).2 ≠ MouseupOutcome.completed b) ∧
    (∀ (isReady : Bool) (b : SelBounds), b.width ≤ 10 ∨ b.height ≤ 10 →
      completedSelectionFires isReady b = false) := by
  have hd : mousedown initOverlay false a =
      { dragging := true, startX := a.x, startY := a.y } := rfl
  have hcan : (runGesture a moves p).2 = MouseupOutcome.cancelled := by
    rw [runGesture, foldl_mousemove, hd, mouseup_after_down, if_neg]
    omega
  refine ⟨hcan, ?_, ?_⟩
  · intro b hb
    rw [hcan] at hb
    exact absurd hb (by simp)
  · intro isReady b hb
    have : isReady = false ∨ b.width ≤ 10 ∨ b.height ≤ 10 := Or.inr hb
    simp [completedSelectionFires, this]

/-- Witness for C2: a release at exactly 10 pixels of width (down at
(0,0), up at (10,40)) is cancelled, and the pooled overlay guard
refuses the bounds (0, 0, 10, 40). -/
theorem C2_witness :
    (runGesture ⟨0, 0⟩ [] ⟨10, 40⟩).2 = MouseupOutcome.cancelled ∧
    completedSelectionFires true ⟨0, 0, 10, 40⟩ = false :=
  ⟨(C2_small_selection_cancelled ⟨0, 0⟩ ⟨10, 40⟩ [] (by decide)).1,
   (C2_small_selection_cancelled ⟨0, 0⟩ ⟨10, 40⟩ [] (by decide)).2.2 true
     ⟨0, 0, 10, 40⟩ (by decide)⟩

/-- Claim C3 (code bug): on a 1920 x 1080 screen, the request
(x 0, y 0, width 1930, height 1080) is adjusted by capture_screen_area
to (x -10, y 0, width 1930, height 1080), which does NOT lie within
[0, 1920) x [0, 1080) - the x coordinate is negative and x + width
exceeds the screen width - contradicting the clamp-into-screen policy
stated by the spec and by the source's own comment
("Make sure bounds are within screen limits"). -/
theorem C3_clamp_bug :
    adjustBounds 1920 1080 { x := 0, y := 0, width := 1930, height := 1080 } =
      { x := -10, y := 0, width := 1930, height := 1080 } ∧
    ¬(0 ≤ (adjustBounds 1920 1080 { x := 0, y := 0, width := 1930, height := 1080 }).x ∧
      (adjustBounds 1920 1080 { x := 0, y := 0, width := 1930, height := 1080 }).x +
        ((adjustBounds 1920 1080 { x := 0, y := 0, width := 1930, height := 1080 }).width : Int)
        ≤ 1920) := by
  constructor
  · rfl
  · intro hcontra
    have hx : (adjustBounds 1920 1080
        { x := 0, y := 0, width := 1930, height := 1080 }).x = -10 := rfl
    rw [hx] at hcontra
    omega

/-- Claim C4: when the capture provider fails after a valid completed
selection, overlay_selection_completed delivers
SelectionResult {bounds, image_data empty, cancelled true} on the
channel; the provider error is swallowed and never escapes to the
caller of the selection flow (the embedded command is total). -/
theorem C4_provider_failure_degrades
    (provider : CaptureBounds → Except String OvCaptureResult)
    (sel : OverlaySelection) (e : String)
    (h : provider (selectionBounds sel) = Except.error e) :
    (overlay_selection_completed provider sel).1 =
      { bounds := selectionBounds sel, image_data := "", cancelled := true } := by
  simp only [overlay_selection_completed]
  rw [h]

/-- Witness for C4: a provider that always fails with a simulated OS
error yields the cancelled fallback result for the selection
(100, 100, 300, 200). -/
theorem C4_witness :
    (fun _ => Except.error "simulated OS error" :
        CaptureBounds → Except String OvCaptureResult)
      (selectionBounds ⟨100, 100, 300, 200⟩) = Except.error "simulated OS error" ∧
    (overlay_selection_completed
        (fun _ => Except.error "simulated OS error") ⟨100, 100, 300, 200⟩).1 =
      { bounds := selectionBounds ⟨100, 100, 300, 200⟩, image_data := "", cancelled := true } :=
  ⟨rfl, C4_provider_failure_degrades (fun _ => Except.error "simulated OS error")
    ⟨100, 100, 300, 200⟩ "simulated OS error" rfl⟩

/-- Claim C6: on cancellation, overlay_selection_cancelled delivers
exactly SelectionResult {bounds (0,0,0,0), image_data empty,
cancelled true} and issues no capture request. -/
theorem C6_cancelled_result :
    overlay_selection_cancelled =
      ({ bounds := { x := 0, y := 0, width := 0, height := 0 },
         image_data := "", cancelled := true }, ([] : List CaptureBounds)) := rfl

/-- Claim C5: show_selection_overlay never constructs a second surface
while one exists: a new surface is constructed only when the pool is
empty, and an existing surface is kept and reused (with resetSelection
invoked whenever the show call succeeds) instead of being replaced. -/
theorem C5_no_second_surface (m : OverlayManager) (env : ShowEnv) (now newId : Nat) :
    ((show_selection_overlay m env now newId).created = true → m.overlay_window = none) ∧
    (∀ w, m.overlay_window = some w →
      (show_selection_overlay m env now newId).state.overlay_window = some w ∧
      (show_selection_overlay m env now newId).created = false ∧
      ((show_selection_overlay m env now newId).ok = true →
        (show_selection_overlay m env now newId).resetInvoked = true)) := by
  cases hw : m.overlay_window with
  | none =>
      refine ⟨fun _ => rfl, fun w hww => ?_⟩
      exact absurd hww (by simp)
  | some w =>
      constructor
      · intro hc
        by_cases hs : env.showOk
        · simp [show_selection_overlay, hw, hs] at hc
        · simp [show_selection_overlay, hw, hs] at hc
      · intro w2 hw2
        injection hw2 with hw2
        subst hw2
        by_cases hs : env.showOk
        · simp [show_selection_overlay, hw, hs]
        · simp [show_selection_overlay, hw, hs]

/-- Witness for C5: with a pooled surface 7 present and a working show
call, the surface is reused (same window, nothing created, reset
invoked); with an empty pool, a construction is indeed from the empty
pool. -/
theorem C5_witness :
    (show_selection_overlay ⟨some 7, false, some 0⟩ ⟨true, true⟩ 1 99).state.overlay_window =
      some 7 ∧
    (show_selection_overlay ⟨some 7, false, some 0⟩ ⟨true, true⟩ 1 99).created = false ∧
    (show_selection_overlay ⟨some 7, false, some 0⟩ ⟨true, true⟩ 1 99).resetInvoked = true ∧
    (⟨none, false, none⟩ : OverlayManager).overlay_window = none :=
  have h := (C5_no_second_surface ⟨some 7, false, some 0⟩ ⟨true, true⟩ 1 99).2 7 rfl
  ⟨h.1, h.2.1, h.2.2 rfl, (C5_no_second_surface ⟨none, false, none⟩ ⟨true, true⟩ 1 99).1 rfl⟩

/-- Counterexample for C7: a request of width 0 (still width 0 after
clamping on a 1920 x 1080 screen) is NOT rejected with any error - the
command forwards it to the OS capture (the issued-request trace is
nonempty) and returns Ok, here even with success = true when the
provider accepts it.  No InvalidBounds rejection exists in the code. -/
theorem C7_counterexample :
    (adjustBounds 1920 1080 { x := 0, y := 0, width := 0, height := 0 }).width = 0 ∧
    (capture_screen_area
        { screens := Except.ok [{ width := 1920, height := 1080 }],
          capture := fun _ _ _ _ => Except.ok [],
          toPng := fun _ => Except.ok [],
          base64 := fun _ => "" }
        { x := 0, y := 0, width := 0, height := 0 }).1 =
      Except.ok { success := true, message := "Screen area captured successfully!",
                  bounds := some { x := 0, y := 0, width := 0, height := 0 },
                  image_data := some "data:image/png;base64," } ∧
    (capture_screen_area
        { screens := Except.ok [{ width := 1920, height := 1080 }],
          capture := fun _ _ _ _ => Except.ok [],
          toPng := fun _ => Except.ok [],
          base64 := fun _ => "" }
        { x := 0, y := 0, width := 0, height := 0 }).2 =
      [{ x := 0, y := 0, width := 0, height := 0 }] :=
  ⟨rfl, rfl, rfl⟩

/-- Claim C7 amended: a request whose width or height is 0 after
clamping is not rejected: capture_screen_area has no InvalidBounds
error, forwards the clamped bounds to the capture provider, and returns
the Ok variant, with any provider failure reported in-band. -/
theorem C7_degenerate_request_not_rejected (env : CaptureEnv) (b : CaptureBounds)
    (s : ScreenD) (rest : List ScreenD)
    (hs : env.screens = Except.ok (s :: rest))
    (h0 : (adjustBounds s.width s.height b).width = 0 ∨
          (adjustBounds s.width s.height b).height = 0) :
    (capture_screen_area env b).2 = [adjustBounds s.width s.height b] ∧
    (capture_screen_area env b).1.isOk = true := by
  cases hcap : env.capture (adjustBounds s.width s.height b).x
      (adjustBounds s.width s.height b).y (adjustBounds s.width s.height b).width
      (adjustBounds s.width s.height b).height with
  | error e =>
      constructor <;> simp [capture_screen_area, hs, hcap, Except.isOk, Except.toBool]
  | ok image =>
      cases hpng : env.toPng image with
      | error e =>
          constructor <;> simp [capture_screen_area, hs, hcap, hpng, Except.isOk, Except.toBool]
      | ok png =>
          constructor <;> simp [capture_screen_area, hs, hcap, hpng, Except.isOk, Except.toBool]

/-- Witness for C7: the zero-size request (0, 0, 0, 0) on a 1920 x 1080
screen is forwarded to the provider and answered with Ok. -/
theorem C7_witness :
    ({ screens := Except.ok [{ width := 1920, height := 1080 }],
       capture := fun _ _ _ _ => Except.ok [],
       toPng := fun _ => Except.ok [],
       base64 := fun _ => "" } : CaptureEnv).screens =
      Except.ok [{ width := 1920, height := 1080 }] ∧
    (adjustBounds 1920 1080 { x := 0, y := 0, width := 0, height := 0 }).width = 0 ∧
    (capture_screen_area
        { screens := Except.ok [{ width := 1920, height := 1080 }],
          capture := fun _ _ _ _ => Except.ok [],
          toPng := fun _ => Except.ok [],
          base64 := fun _ => "" }
        { x := 0, y := 0, width := 0, height := 0 }).2 =
      [adjustBounds 1920 1080 { x := 0, y := 0, width := 0, height := 0 }] ∧
    (capture_screen_area
        { screens := Except.ok [{ width := 1920, height := 1080 }],
          capture := fun _ _ _ _ => Except.ok [],
          toPng := fun _ => Except.ok [],
          base64 := fun _ => "" }
        { x := 0, y := 0, width := 0, height := 0 }).1.isOk = true :=
  have h := C7_degenerate_request_not_rejected
    { screens := Except.ok [{ width := 1920, height := 1080 }],
      capture := fun _ _ _ _ => Except.ok [],
      toPng := fun _ => Except.ok [],
      base64 := fun _ => "" }
    { x := 0, y := 0, width := 0, height := 0 }
    { width := 1920, height := 1080 } [] rfl (Or.inl (by decide))
  ⟨rfl, by decide, h.1, h.2⟩

/-- Counterexample for C8: a pointer-down while the machine is already
Dragging is NOT a no-op in the source: after down at (0,0) the state
has dragging = true, and a second down at (5,5) changes the state (the
anchor moves to (5,5)). -/
theorem C8_counterexample :
    (mousedown initOverlay false ⟨0, 0⟩).dragging = true ∧
    mousedown (mousedown initOverlay false ⟨0, 0⟩) false ⟨5, 5⟩ ≠
      mousedown initOverlay false ⟨0, 0⟩ := by decide

/-- Claim C8 amended: a pointer-down while already Dragging never
crashes, but instead of being ignored it restarts the gesture, setting
the anchor to the new point with dragging still true; only a
pointer-down on the close button leaves the state unchanged. -/
theorem C8_restart_drag (s : OverlayState) (p : Point) (h : s.dragging = true) :
    mousedown s false p = { dragging := true, startX := p.x, startY := p.y } ∧
    mousedown s true p = s :=
  ⟨rfl, rfl⟩

/-- Witness for C8: from the mid-drag state (true, 0, 0), a second
pointer-down at (5,5) re-anchors there, and a close-button down is a
no-op. -/
theorem C8_witness :
    (⟨true, 0, 0⟩ : OverlayState).dragging = true ∧
    mousedown ⟨true, 0, 0⟩ false ⟨5, 5⟩ = { dragging := true, startX := 5, startY := 5 } ∧
    mousedown ⟨true, 0, 0⟩ true ⟨5, 5⟩ = ⟨true, 0, 0⟩ :=
  have h := C8_restart_drag ⟨true, 0, 0⟩ ⟨5, 5⟩ rfl
  ⟨rfl, h.1, h.2⟩

/-- Claim C9: given a recorded last_used instant and a pooled surface,
cleanup_if_old destroys the surface if and only if more than 300
seconds have elapsed and the surface is not active; otherwise the
manager state is left completely intact. -/
theorem C9_cleanup_iff (m : OverlayManager) (now t w : Nat)
    (hl : m.last_used = some t) (hw : m.overlay_window = some w) :
    ((cleanup_if_old m now).overlay_window = none ↔
      (fiveMinutes < now - t ∧ m.is_active = false)) ∧
    (¬(fiveMinutes < now - t ∧ m.is_active = false) → cleanup_if_old m now = m) ∧
    ((fiveMinutes < now - t ∧ m.is_active = false) →
      cleanup_if_old m now = { m with overlay_window := none }) := by
  by_cases hc : fiveMinutes < now - t ∧ m.is_active = false
  · refine ⟨⟨fun _ => hc, fun _ => ?_⟩, fun hnc => absurd hc hnc, fun _ => ?_⟩
    · simp [cleanup_if_old, hl, hc]
    · simp [cleanup_if_old, hl, hc]
  · have hid : cleanup_if_old m now = m := by simp [cleanup_if_old, hl, hc]
    refine ⟨⟨fun hnone => ?_, fun hcc => absurd hcc hc⟩, fun _ => hid,
      fun hcc => absurd hcc hc⟩
    rw [hid, hw] at hnone
    exact absurd hnone (by simp)

/-- Witness for C9: an inactive surface last used 300 seconds plus one
nanosecond ago is destroyed; the same surface while active is left
intact. -/
theorem C9_witness :
    (⟨some 3, false, some 0⟩ : OverlayManager).last_used = some 0 ∧
    (⟨some 3, false, some 0⟩ : OverlayManager).overlay_window = some 3 ∧
    (cleanup_if_old ⟨some 3, false, some 0⟩ (fiveMinutes + 1)).overlay_window = none ∧
    cleanup_if_old ⟨some 3, true, some 0⟩ (fiveMinutes + 1) = ⟨some 3, true, some 0⟩ :=
  have h1 := C9_cleanup_iff ⟨some 3, false, some 0⟩ (fiveMinutes + 1) 0 3 rfl rfl
  have h2 := C9_cleanup_iff ⟨some 3, true, some 0⟩ (fiveMinutes + 1) 0 3 rfl rfl
  ⟨rfl, rfl, h1.1.mpr ⟨by decide, rfl⟩,
   h2.2.1 (fun hc => absurd hc.2 (by decide))⟩

/-- Claim C10: for every environment and every input bounds,
capture_screen_area returns the Ok variant; its success flag equals the
success of the screens/capture/PNG pipeline, and on failure both bounds
and image_data are None (all four failure modes are reported in-band,
never as the command's Err variant). -/
theorem C10_always_ok (env : CaptureEnv) (b : CaptureBounds) :
    ∃ r, (capture_screen_area env b).1 = Except.ok r ∧
      r.success = pipelineOk env b ∧
      r.bounds = (if pipelineOk env b then some (adjustedOf env b) else none) ∧
      r.image_data.isSome = pipelineOk env b := by
  cases hs : env.screens with
  | error e =>
      refine ⟨{ success := false, message := "Failed to access screens: " ++ e,
                bounds := none, image_data := none }, ?_, ?_, ?_, ?_⟩ <;>
        simp [capture_screen_area, pipelineOk, firstScreen, adjustedOf, hs]
  | ok screens =>
      cases screens with
      | nil =>
          refine ⟨{ success := false, message := "No screens available",
                    bounds := none, image_data := none }, ?_, ?_, ?_, ?_⟩ <;>
            simp [capture_screen_area, pipelineOk, firstScreen, adjustedOf, hs]
      | cons s rest =>
          cases hcap : env.capture (adjustBounds s.width s.height b).x
              (adjustBounds s.width s.height b).y (adjustBounds s.width s.height b).width
              (adjustBounds s.width s.height b).height with
          | error e2 =>
              refine ⟨{ success := false, message := "Screen capture failed: " ++ e2,
                        bounds := none, image_data := none }, ?_, ?_, ?_, ?_⟩ <;>
                simp [capture_screen_area, pipelineOk, firstScreen, adjustedOf, hs, hcap]
          | ok image =>
              cases hpng : env.toPng image with
              | error e3 =>
                  refine ⟨{ success := false,
                            message := "Failed to encode image as PNG: " ++ e3,
                            bounds := none, image_data := none }, ?_, ?_, ?_, ?_⟩ <;>
                    simp [capture_screen_area, pipelineOk, firstScreen, adjustedOf, hs,
                      hcap, hpng, Except.isOk, Except.toBool]
              | ok png =>
                  refine ⟨{ success := true,
                            message := "Screen area captured successfully!",
                            bounds := some (adjustBounds s.width s.height b),
                            image_data := some ("data:image/png;base64," ++ env.base64 png) },
                      ?_, ?_, ?_, ?_⟩ <;>
                    simp [capture_screen_area, pipelineOk, firstScreen, adjustedOf, hs,
                      hcap, hpng, Except.isOk, Except.toBool]
